import Mathlib

/-!
Shallow embedding of the MEXC futures pump/dump alert bot
(`mexc_futures_bot.py`): the per-instrument price-change detector
(`process_ticker`), the subscriber dispatch filter, the reconnection
backoff of `websocket_stream`, and the backup base-price sweep
(`job_reset_base_prices`).  Prices, percentages and timestamps are
modelled as rationals; the process-wide dict state is modelled as
functions from symbol strings to optional entries.
-/

namespace MexcBot

/-- `PUMP_THRESHOLD = 3.0` -/
def PUMP_THRESHOLD : ℚ := 3

/-- `DUMP_THRESHOLD = -3.0` -/
def DUMP_THRESHOLD : ℚ := -3

/-- `MODERATE_MAX = 5.0` -/
def MODERATE_MAX : ℚ := 5

/-- `EXTREME_THRESHOLD = 10.0` -/
def EXTREME_THRESHOLD : ℚ := 10

/-- `MIN_VOL_THRESHOLD = 100000` -/
def MIN_VOL_THRESHOLD : ℚ := 100000

/-- Python's `abs` on the (rational-modelled) change percentage. -/
def rabs (q : ℚ) : ℚ := if q < 0 then -q else q

/-- One ticker payload (`data` of a `push.ticker` message): `symbol`,
`lastPrice`, `amount24`, `volume24`.  A missing numeric field is `0`,
matching `float(ticker_data.get(..., 0))`. -/
structure TickerData where
  symbol : String
  lastPrice : ℚ
  amount24 : ℚ
  volume24 : ℚ
deriving DecidableEq

/-- `volume_usdt`: `amount24`, falling back to `volume24 * lastPrice`
when `amount24 == 0`. -/
def volumeUSDT (t : TickerData) : ℚ :=
  if t.amount24 = 0 then t.volume24 * t.lastPrice else t.amount24

/-- Severity of an alert as rendered by `fmt_alert`: EXTREME when
`abs(change_pct) >= EXTREME_THRESHOLD`, MODERATE otherwise. -/
inductive Severity where
  | MODERATE
  | EXTREME
deriving DecidableEq

/-- A classified alert event, produced once per qualifying sample. -/
structure AlertEvent where
  instrument : String
  basePrice : ℚ
  currentPrice : ℚ
  changePct : ℚ
  severity : Severity
deriving DecidableEq

/-- A delivery target of one alert message: the broadcast channel
(`CHANNEL_ID`) or one subscriber chat. -/
inductive Recipient where
  | channel (c : String)
  | chat (id : ℤ)
deriving DecidableEq

/-- The process-wide detector state: `LAST_PRICES`, `BASE_PRICES`,
`ALERTED_SYMBOLS`, `MAX_CHANGES`, `LAST_SIGNIFICANT_CHANGE`, each a dict
keyed by symbol, modelled as a function to an optional entry. -/
structure BotState where
  lastPrices : String → Option (ℚ × ℚ)
  basePrices : String → Option ℚ
  alertedSymbols : String → Option ℚ
  maxChanges : String → Option (ℚ × ℚ)
  lastSignificantChange : String → Option ℚ

/-- Point update of a symbol-keyed map (`D[symbol] = v`). -/
def setMap {α : Type} (f : String → Option α) (k : String) (v : α) :
    String → Option α :=
  fun s => if s = k then some v else f s

/-- The empty detector state (all dicts empty). -/
def emptyState : BotState :=
  ⟨fun _ => none, fun _ => none, fun _ => none, fun _ => none, fun _ => none⟩

/-- Subscriber-side configuration read by the dispatch loop:
`CHANNEL_ID` (optional), `SUBSCRIBERS`, `ALERT_MODE` and `MUTED_COINS`. -/
structure Config where
  channelId : Option String
  subscribers : List ℤ
  alertMode : List (ℤ × ℕ)
  mutedCoins : List (ℤ × List String)

/-- `ALERT_MODE.get(chat_id)` as an association-list lookup. -/
def lookupMode (cfg : Config) (cid : ℤ) : Option ℕ :=
  (cfg.alertMode.find? (fun p => decide (p.1 = cid))).map Prod.snd

/-- `chat_id in MUTED_COINS and symbol in MUTED_COINS[chat_id]`. -/
def isMuted (cfg : Config) (cid : ℤ) (sym : String) : Bool :=
  match cfg.mutedCoins.find? (fun p => decide (p.1 = cid)) with
  | some (_, l) => l.contains sym
  | none => false

/-- The per-subscriber filter of the dispatch loop (lines 543-553):
skip when muted; `mode = ALERT_MODE.get(chat_id, 1)`; mode 2 skips
unless `PUMP_THRESHOLD <= abs_change <= MODERATE_MAX`; mode 3 skips when
`abs_change < EXTREME_THRESHOLD`; otherwise send. -/
def shouldSend (cfg : Config) (sym : String) (absChange : ℚ) (cid : ℤ) :
    Bool :=
  if isMuted cfg cid sym then false
  else
    let mode := (lookupMode cfg cid).getD 1
    if mode = 2 ∧ ¬ (PUMP_THRESHOLD ≤ absChange ∧ absChange ≤ MODERATE_MAX) then
      false
    else if mode = 3 ∧ absChange < EXTREME_THRESHOLD then
      false
    else
      true

/-- The delivery tasks built for one qualifying event: one channel send
when `CHANNEL_ID` is set, then one send per subscriber passing
`shouldSend`. -/
def dispatchList (cfg : Config) (sym : String) (absChange : ℚ) :
    List Recipient :=
  (match cfg.channelId with
   | some c => [Recipient.channel c]
   | none => []) ++
  (cfg.subscribers.filter (shouldSend cfg sym absChange)).map Recipient.chat

/-- The `MAX_CHANGES` / `LAST_SIGNIFICANT_CHANGE` tracking step
(lines 496-502): when the symbol has no entry, create it with
`max_pct = price_change` (and do not touch `LAST_SIGNIFICANT_CHANGE`);
otherwise, when `abs(price_change)` exceeds the stored `abs(max_pct)`,
overwrite the entry and record `LAST_SIGNIFICANT_CHANGE[symbol] = now`. -/
def stepExtremum (st : BotState) (sym : String) (priceChange now : ℚ) :
    BotState :=
  match st.maxChanges sym with
  | none =>
      { st with maxChanges := setMap st.maxChanges sym (priceChange, now) }
  | some (maxPct, _) =>
      if rabs priceChange > rabs maxPct then
        { st with
            maxChanges := setMap st.maxChanges sym (priceChange, now),
            lastSignificantChange := setMap st.lastSignificantChange sym now }
      else st

/-- The base-reset condition (lines 505-510): `abs_change < 1.5`, or the
symbol has a `LAST_SIGNIFICANT_CHANGE` entry more than 50 seconds old. -/
def shouldResetBase (st : BotState) (sym : String) (absChange now : ℚ) :
    Bool :=
  if absChange < 3/2 then true
  else
    match st.lastSignificantChange sym with
    | some t0 => decide (now - t0 > 50)
    | none => false

/-- The base-price reset (lines 513-514 and 569-570): set
`BASE_PRICES[symbol]` to the current price and zero `MAX_CHANGES`. -/
def resetBase (st : BotState) (sym : String) (price now : ℚ) : BotState :=
  { st with
      basePrices := setMap st.basePrices sym price,
      maxChanges := setMap st.maxChanges sym (0, now) }

/-- Result of processing one ticker: the new detector state, the
delivery tasks issued, and the alert event emitted (if any). -/
structure ProcOut where
  state : BotState
  recipients : List Recipient
  event : Option AlertEvent

/-- `process_ticker` (lines 460-574).  Rejects empty symbols and
invalid samples; records `LAST_PRICES`; seeds `BASE_PRICES` on the first
valid sample; tracks the extremum; applies the drift/staleness base
reset before the alert decision; on a qualifying change records
`ALERTED_SYMBOLS[symbol] = now`, builds the event and the delivery
tasks, and — only when at least one task was built — applies the
post-dispatch EXTREME base reset. -/
def process_ticker (cfg : Config) (st : BotState) (now : ℚ)
    (t : TickerData) : ProcOut :=
  if t.symbol = "" then ⟨st, [], none⟩
  else
    let price := t.lastPrice
    let vol := volumeUSDT t
    if price ≤ 0 ∨ vol < MIN_VOL_THRESHOLD then ⟨st, [], none⟩
    else
      let st1 : BotState :=
        { st with lastPrices := setMap st.lastPrices t.symbol (price, now) }
      match st1.basePrices t.symbol with
      | none =>
          ⟨{ st1 with basePrices := setMap st1.basePrices t.symbol price },
           [], none⟩
      | some basePrice =>
          let priceChange := (price - basePrice) / basePrice * 100
          let absChange := rabs priceChange
          let st2 := stepExtremum st1 t.symbol priceChange now
          let st3 :=
            if shouldResetBase st2 t.symbol absChange now then
              resetBase st2 t.symbol price now
            else st2
          if ¬ (priceChange ≥ PUMP_THRESHOLD ∨ priceChange ≤ DUMP_THRESHOLD) then
            ⟨st3, [], none⟩
          else
            let st4 : BotState :=
              { st3 with
                  alertedSymbols := setMap st3.alertedSymbols t.symbol now }
            let ev : AlertEvent :=
              ⟨t.symbol, basePrice, price, priceChange,
               if absChange ≥ EXTREME_THRESHOLD then Severity.EXTREME
               else Severity.MODERATE⟩
            let tasks := dispatchList cfg t.symbol absChange
            let st5 :=
              if tasks ≠ [] ∧ absChange ≥ EXTREME_THRESHOLD then
                resetBase st4 t.symbol price now
              else st4
            ⟨st5, tasks, some ev⟩

/-- `job_reset_base_prices` (lines 667-678): for every symbol with a
`LAST_PRICES` entry whose `ALERTED_SYMBOLS` entry is absent or more than
300 seconds old, force `BASE_PRICES[symbol]` to the last observed price;
all other base prices are untouched. -/
def job_reset_base_prices (st : BotState) (now : ℚ) : BotState :=
  { st with
      basePrices := fun sym =>
        match st.lastPrices sym with
        | none => st.basePrices sym
        | some (p, _) =>
            match st.alertedSymbols sym with
            | none => some p
            | some ta =>
                if now - ta > 300 then some p else st.basePrices sym }

/-- Initial reconnect delay of `websocket_stream` (line 581). -/
def RECONNECT_INITIAL : ℕ := 5

/-- Reconnect delay cap (line 663). -/
def RECONNECT_CAP : ℕ := 60

/-- `reconnect_delay = min(reconnect_delay * 2, 60)` (line 663). -/
def nextReconnectDelay (d : ℕ) : ℕ := min (d * 2) RECONNECT_CAP

/-- Events seen by the reconnect loop: a successful connection, or a
failure of the connect/receive loop. -/
inductive WsEvent where
  | connected
  | failed

/-- Delay-state transition of `websocket_stream`: a successful
connection resets the delay to 5 (line 603); a failure sleeps the
current delay and then doubles it, capped at 60 (lines 662-663). -/
def wsDelayStep (d : ℕ) : WsEvent → ℕ
  | WsEvent.connected => RECONNECT_INITIAL
  | WsEvent.failed => nextReconnectDelay d

/-- The delay slept on the `n`-th consecutive failure (0-indexed) after
the last successful connection (or process start). -/
def reconnectDelay : ℕ → ℕ
  | 0 => RECONNECT_INITIAL
  | n + 1 => nextReconnectDelay (reconnectDelay n)

/-! ### Helper lemmas -/

lemma setMap_self {α : Type} (f : String → Option α) (k : String) (v : α) :
    setMap f k v k = some v := by
  simp [setMap]

lemma stepExtremum_basePrices (st : BotState) (sym : String)
    (pc now : ℚ) : (stepExtremum st sym pc now).basePrices = st.basePrices := by
  unfold stepExtremum
  rcases h : st.maxChanges sym with _ | ⟨m, tm⟩ <;> simp [h]
  split <;> rfl

lemma stepExtremum_alertedSymbols (st : BotState) (sym : String)
    (pc now : ℚ) :
    (stepExtremum st sym pc now).alertedSymbols = st.alertedSymbols := by
  unfold stepExtremum
  rcases h : st.maxChanges sym with _ | ⟨m, tm⟩ <;> simp [h]
  split <;> rfl

lemma stepExtremum_setLastPrices (st : BotState) (f : String → Option (ℚ × ℚ))
    (sym : String) (pc now : ℚ) :
    stepExtremum { st with lastPrices := f } sym pc now =
      { stepExtremum st sym pc now with lastPrices := f } := by
  unfold stepExtremum
  rcases h : st.maxChanges sym with _ | ⟨m, tm⟩ <;> simp [h]
  split <;> rfl

lemma chat_mem_dispatchList (cfg : Config) (sym : String) (a : ℚ)
    (cid : ℤ) :
    Recipient.chat cid ∈ dispatchList cfg sym a ↔
      cid ∈ cfg.subscribers ∧ shouldSend cfg sym a cid = true := by
  unfold dispatchList
  rcases cfg.channelId with _ | c <;>
    simp [List.mem_filter]

lemma shouldSend_true_iff (cfg : Config) (sym : String) (a : ℚ)
    (cid : ℤ) :
    shouldSend cfg sym a cid = true ↔
      isMuted cfg cid sym = false ∧
      ((lookupMode cfg cid).getD 1 = 2 →
        PUMP_THRESHOLD ≤ a ∧ a ≤ MODERATE_MAX) ∧
      ((lookupMode cfg cid).getD 1 = 3 → EXTREME_THRESHOLD ≤ a) := by
  unfold shouldSend
  by_cases hm : isMuted cfg cid sym
  · simp [hm]
  · rw [Bool.not_eq_true] at hm
    simp only [hm, Bool.false_eq_true, if_false, true_and]
    split_ifs with h2 h3
    · simp only [Bool.false_eq_true, false_iff]
      rintro ⟨hr, -⟩
      exact h2.2 (hr h2.1)
    · simp only [Bool.false_eq_true, false_iff]
      rintro ⟨-, hr⟩
      exact absurd (hr h3.1) (not_le.mpr h3.2)
    · simp only [true_iff]
      constructor
      · intro hm2
        by_contra hr
        exact h2 ⟨hm2, hr⟩
      · intro hm3
        by_contra hr
        exact h3 ⟨hm3, not_le.mp hr⟩

/-! ### Claim theorems -/

/-- Claim C6: a sample with `price <= 0` or `turnoverUSDT` below the
liquidity floor is rejected with no change to any per-instrument state
and no event and no deliveries. -/
theorem invalid_sample_rejected_without_state_change (cfg : Config)
    (st : BotState) (now : ℚ) (t : TickerData)
    (h : t.lastPrice ≤ 0 ∨ volumeUSDT t < MIN_VOL_THRESHOLD) :
    process_ticker cfg st now t = ⟨st, [], none⟩ := by
  unfold process_ticker
  split
  · rfl
  · simp [h]

/-- Witness for C6: a sample with 24h turnover 50000 < 100000 is
rejected unchanged. -/
theorem invalid_sample_rejected_without_state_change_witness :
    process_ticker ⟨none, [], [], []⟩ emptyState 0
      ⟨"BTC_USDT", 100, 50000, 0⟩ = ⟨emptyState, [], none⟩ :=
  invalid_sample_rejected_without_state_change ⟨none, [], [], []⟩
    emptyState 0 ⟨"BTC_USDT", 100, 50000, 0⟩
    (Or.inr (by norm_num [volumeUSDT, MIN_VOL_THRESHOLD]))

/-- Claim C7: for an instrument with no prior base price, the first
valid sample seeds `basePrice` with that sample's price and produces no
alert and no deliveries, regardless of the price's magnitude. -/
theorem first_valid_sample_seeds_base_no_alert (cfg : Config)
    (st : BotState) (now : ℚ) (t : TickerData)
    (hs : ¬ t.symbol = "") (hp : 0 < t.lastPrice)
    (hv : MIN_VOL_THRESHOLD ≤ volumeUSDT t)
    (hb : st.basePrices t.symbol = none) :
    (process_ticker cfg st now t).state.basePrices t.symbol =
      some t.lastPrice ∧
    (process_ticker cfg st now t).recipients = [] ∧
    (process_ticker cfg st now t).event = none := by
  have hvalid : ¬ (t.lastPrice ≤ 0 ∨ volumeUSDT t < MIN_VOL_THRESHOLD) := by
    push_neg
    exact ⟨hp, hv⟩
  unfold process_ticker
  rw [if_neg hs]
  simp [hvalid, hb, setMap]

/-- Witness for C7: the first valid sample (price 50, turnover from the
`volume24` fallback) seeds the base price and emits nothing. -/
theorem first_valid_sample_seeds_base_no_alert_witness :
    (process_ticker ⟨none, [], [], []⟩ emptyState 0
        ⟨"X_USDT", 50, 0, 5000⟩).state.basePrices "X_USDT" = some 50 ∧
    (process_ticker ⟨none, [], [], []⟩ emptyState 0
        ⟨"X_USDT", 50, 0, 5000⟩).recipients = [] ∧
    (process_ticker ⟨none, [], [], []⟩ emptyState 0
        ⟨"X_USDT", 50, 0, 5000⟩).event = none :=
  first_valid_sample_seeds_base_no_alert ⟨none, [], [], []⟩ emptyState 0
    ⟨"X_USDT", 50, 0, 5000⟩ (by decide) (by norm_num)
    (by norm_num [volumeUSDT, MIN_VOL_THRESHOLD]) rfl

/-- Claim C8: the reconnection delay after `n` consecutive failures is
`min (5 * 2 ^ n) 60`, giving the sequence 5, 10, 20, 40, 60, 60, ...,
and a successful connection resets the delay to 5. -/
theorem reconnect_backoff_sequence :
    (∀ n, reconnectDelay n = min (RECONNECT_INITIAL * 2 ^ n) RECONNECT_CAP) ∧
    (reconnectDelay 0 = 5 ∧ reconnectDelay 1 = 10 ∧ reconnectDelay 2 = 20 ∧
     reconnectDelay 3 = 40 ∧ reconnectDelay 4 = 60 ∧ reconnectDelay 5 = 60) ∧
    (∀ d, wsDelayStep d WsEvent.connected = RECONNECT_INITIAL) := by
  refine ⟨?_, by decide, fun d => rfl⟩
  intro n
  induction n with
  | zero => decide
  | succ n ih =>
      show nextReconnectDelay (reconnectDelay n) = _
      rw [ih]
      unfold nextReconnectDelay RECONNECT_INITIAL RECONNECT_CAP
      rw [pow_succ, ← mul_assoc]
      generalize 5 * 2 ^ n = a
      omega

/-- Claim C9: one run of the backup sweep forces `basePrice` to the
last observed price exactly for instruments whose `lastAlertAt` is
absent or more than 300 seconds old, leaving every other base price
unchanged. -/
theorem backup_sweep_resets_stale_bases (st : BotState) (now : ℚ)
    (sym : String) :
    (∀ p tp, st.lastPrices sym = some (p, tp) →
      st.alertedSymbols sym = none →
      (job_reset_base_prices st now).basePrices sym = some p) ∧
    (∀ p tp ta, st.lastPrices sym = some (p, tp) →
      st.alertedSymbols sym = some ta → now - ta > 300 →
      (job_reset_base_prices st now).basePrices sym = some p) ∧
    (∀ p tp ta, st.lastPrices sym = some (p, tp) →
      st.alertedSymbols sym = some ta → ¬ now - ta > 300 →
      (job_reset_base_prices st now).basePrices sym = st.basePrices sym) ∧
    (st.lastPrices sym = none →
      (job_reset_base_prices st now).basePrices sym = st.basePrices sym) := by
  refine ⟨?_, ?_, ?_, ?_⟩
  · intro p tp hlp ha
    simp [job_reset_base_prices, hlp, ha]
  · intro p tp ta hlp ha hstale
    simp [job_reset_base_prices, hlp, ha, hstale]
  · intro p tp ta hlp ha hfresh
    simp [job_reset_base_prices, hlp, ha, hfresh]
  · intro hlp
    simp [job_reset_base_prices, hlp]

/-- Claim C1: in the Tracking state a valid sample emits an alert event
iff `changePct >= 3` or `changePct <= -3`; the emitted event carries the
severity EXTREME iff `|changePct| >= 10` (else MODERATE) and
`lastAlertAt` is recorded at `now`.  The state `st` (in particular any
previous `lastAlertAt`) is universally quantified and the emission
condition depends only on the change, so each of any number of
consecutive qualifying samples independently emits: no de-duplication or
cooldown exists. -/
theorem alert_iff_threshold_no_cooldown (cfg : Config) (st : BotState)
    (now : ℚ) (t : TickerData) (base : ℚ)
    (hs : ¬ t.symbol = "") (hp : 0 < t.lastPrice)
    (hv : MIN_VOL_THRESHOLD ≤ volumeUSDT t)
    (hb : st.basePrices t.symbol = some base) :
    ((process_ticker cfg st now t).event.isSome ↔
      (t.lastPrice - base) / base * 100 ≥ PUMP_THRESHOLD ∨
      (t.lastPrice - base) / base * 100 ≤ DUMP_THRESHOLD) ∧
    ((t.lastPrice - base) / base * 100 ≥ PUMP_THRESHOLD ∨
      (t.lastPrice - base) / base * 100 ≤ DUMP_THRESHOLD →
      (process_ticker cfg st now t).event =
        some ⟨t.symbol, base, t.lastPrice, (t.lastPrice - base) / base * 100,
          if rabs ((t.lastPrice - base) / base * 100) ≥ EXTREME_THRESHOLD then
            Severity.EXTREME
          else Severity.MODERATE⟩ ∧
      (process_ticker cfg st now t).state.alertedSymbols t.symbol =
        some now) := by
  have hvalid : ¬ (t.lastPrice ≤ 0 ∨ volumeUSDT t < MIN_VOL_THRESHOLD) := by
    push_neg
    exact ⟨hp, hv⟩
  unfold process_ticker
  rw [if_neg hs]
  by_cases hq : (t.lastPrice - base) / base * 100 ≥ PUMP_THRESHOLD ∨
      (t.lastPrice - base) / base * 100 ≤ DUMP_THRESHOLD
  · refine ⟨by simp [hvalid, hb, hq], fun _ => ⟨by simp [hvalid, hb, hq], ?_⟩⟩
    simp only [hvalid, hb]
    simp [hq]
    split <;> simp [resetBase, setMap]
  · refine ⟨by simp [hvalid, hb, hq], fun h => absurd h hq⟩

/-- Witness for C1: base 100, price 104, `changePct = 4`, a MODERATE
alert with `lastAlertAt` recorded. -/
theorem alert_iff_threshold_no_cooldown_witness :
    ((process_ticker ⟨none, [], [], []⟩
      { emptyState with
          basePrices := fun s => if s = "BTC_USDT" then some (100 : ℚ) else none }
      0 ⟨"BTC_USDT", 104, 200000, 0⟩).event.isSome ↔
      ((104 : ℚ) - 100) / 100 * 100 ≥ PUMP_THRESHOLD ∨
      ((104 : ℚ) - 100) / 100 * 100 ≤ DUMP_THRESHOLD) ∧
    (((104 : ℚ) - 100) / 100 * 100 ≥ PUMP_THRESHOLD ∨
      ((104 : ℚ) - 100) / 100 * 100 ≤ DUMP_THRESHOLD →
      (process_ticker ⟨none, [], [], []⟩
        { emptyState with
            basePrices := fun s => if s = "BTC_USDT" then some (100 : ℚ) else none }
        0 ⟨"BTC_USDT", 104, 200000, 0⟩).event =
        some ⟨"BTC_USDT", 100, 104, ((104 : ℚ) - 100) / 100 * 100,
          if rabs (((104 : ℚ) - 100) / 100 * 100) ≥ EXTREME_THRESHOLD then
            Severity.EXTREME
          else Severity.MODERATE⟩ ∧
      (process_ticker ⟨none, [], [], []⟩
        { emptyState with
            basePrices := fun s => if s = "BTC_USDT" then some (100 : ℚ) else none }
        0 ⟨"BTC_USDT", 104, 200000, 0⟩).state.alertedSymbols "BTC_USDT" =
        some 0) :=
  alert_iff_threshold_no_cooldown ⟨none, [], [], []⟩
    { emptyState with
        basePrices := fun s => if s = "BTC_USDT" then some (100 : ℚ) else none }
    0 ⟨"BTC_USDT", 104, 200000, 0⟩ 100 (by decide) (by norm_num)
    (by norm_num [volumeUSDT, MIN_VOL_THRESHOLD]) (by simp)

/-- Claim C2: in the Tracking state, when `|changePct| < 1.5` or the
(post-extremum-step) `lastSignificantChangeAt` is more than 50 seconds
old, the base price is reset to the sample's price and the extremum
tracker zeroed, while an alert qualifying on the same sample still uses
the pre-reset base price and change percentage. -/
theorem drift_or_stale_reset_uses_prereset_base (cfg : Config)
    (st : BotState) (now : ℚ) (t : TickerData) (base : ℚ)
    (hs : ¬ t.symbol = "") (hp : 0 < t.lastPrice)
    (hv : MIN_VOL_THRESHOLD ≤ volumeUSDT t)
    (hb : st.basePrices t.symbol = some base)
    (hreset : rabs ((t.lastPrice - base) / base * 100) < 3/2 ∨
      ∃ t0, (stepExtremum st t.symbol ((t.lastPrice - base) / base * 100)
          now).lastSignificantChange t.symbol = some t0 ∧ now - t0 > 50) :
    (process_ticker cfg st now t).state.basePrices t.symbol =
      some t.lastPrice ∧
    (process_ticker cfg st now t).state.maxChanges t.symbol =
      some (0, now) ∧
    ((t.lastPrice - base) / base * 100 ≥ PUMP_THRESHOLD ∨
      (t.lastPrice - base) / base * 100 ≤ DUMP_THRESHOLD →
      (process_ticker cfg st now t).event =
        some ⟨t.symbol, base, t.lastPrice, (t.lastPrice - base) / base * 100,
          if rabs ((t.lastPrice - base) / base * 100) ≥ EXTREME_THRESHOLD
          then Severity.EXTREME else Severity.MODERATE⟩) := by
  have hvalid : ¬ (t.lastPrice ≤ 0 ∨ volumeUSDT t < MIN_VOL_THRESHOLD) := by
    push_neg
    exact ⟨hp, hv⟩
  have hrb : shouldResetBase
      (stepExtremum
        { st with lastPrices := setMap st.lastPrices t.symbol (t.lastPrice, now) }
        t.symbol ((t.lastPrice - base) / base * 100) now)
      t.symbol (rabs ((t.lastPrice - base) / base * 100)) now = true := by
    rw [stepExtremum_setLastPrices]
    unfold shouldResetBase
    rcases hreset with h | ⟨t0, ht0, h50⟩
    · rw [if_pos h]
    · split
      · rfl
      · simp [ht0, h50]
  unfold process_ticker
  rw [if_neg hs]
  by_cases hq : (t.lastPrice - base) / base * 100 ≥ PUMP_THRESHOLD ∨
      (t.lastPrice - base) / base * 100 ≤ DUMP_THRESHOLD
  · refine ⟨?_, ?_, fun _ => ?_⟩
    · simp [hvalid, hb, hq, hrb, resetBase, setMap]
      split <;> simp [resetBase, setMap]
    · simp [hvalid, hb, hq, hrb, resetBase, setMap]
      split <;> simp [resetBase, setMap]
    · simp [hvalid, hb, hq, hrb]
  · refine ⟨?_, ?_, fun h => absurd h hq⟩
    · simp [hvalid, hb, hq, hrb, resetBase, setMap]
    · simp [hvalid, hb, hq, hrb, resetBase, setMap]

/-- Witness for C2: base 100, price 101, `changePct = 1 < 1.5`, so the
base resets to 101 and the tracker is zeroed. -/
theorem drift_or_stale_reset_uses_prereset_base_witness :
    (process_ticker ⟨none, [], [], []⟩
      { emptyState with
          basePrices := fun s => if s = "BTC_USDT" then some (100 : ℚ) else none }
      0 ⟨"BTC_USDT", 101, 200000, 0⟩).state.basePrices "BTC_USDT" =
        some 101 ∧
    (process_ticker ⟨none, [], [], []⟩
      { emptyState with
          basePrices := fun s => if s = "BTC_USDT" then some (100 : ℚ) else none }
      0 ⟨"BTC_USDT", 101, 200000, 0⟩).state.maxChanges "BTC_USDT" =
        some (0, 0) ∧
    (((101 : ℚ) - 100) / 100 * 100 ≥ PUMP_THRESHOLD ∨
      ((101 : ℚ) - 100) / 100 * 100 ≤ DUMP_THRESHOLD →
      (process_ticker ⟨none, [], [], []⟩
        { emptyState with
            basePrices := fun s => if s = "BTC_USDT" then some (100 : ℚ) else none }
        0 ⟨"BTC_USDT", 101, 200000, 0⟩).event =
        some ⟨"BTC_USDT", 100, 101, ((101 : ℚ) - 100) / 100 * 100,
          if rabs (((101 : ℚ) - 100) / 100 * 100) ≥ EXTREME_THRESHOLD
          then Severity.EXTREME else Severity.MODERATE⟩) :=
  drift_or_stale_reset_uses_prereset_base ⟨none, [], [], []⟩
    { emptyState with
        basePrices := fun s => if s = "BTC_USDT" then some (100 : ℚ) else none }
    0 ⟨"BTC_USDT", 101, 200000, 0⟩ 100 (by decide) (by norm_num)
    (by norm_num [volumeUSDT, MIN_VOL_THRESHOLD]) (by simp)
    (Or.inl (by norm_num [rabs]))

/-- Claim C4 (amended): no extremum tracker entry is created on the
transition into Tracking; the entry is created lazily on the next valid
sample with `maxChangePct = changePct` of that sample and without
recording `lastSignificantChangeAt`; once an entry exists, a sample with
`|changePct|` exceeding the stored `|maxChangePct|` overwrites the entry
with `(changePct, now)` and records `lastSignificantChangeAt = now`,
and a sample that does not leaves the tracking state unchanged. -/
theorem extremum_tracker_lazy_creation (st : BotState) (sym : String)
    (pc now : ℚ) :
    (st.maxChanges sym = none →
      (stepExtremum st sym pc now).maxChanges sym = some (pc, now) ∧
      (stepExtremum st sym pc now).lastSignificantChange sym =
        st.lastSignificantChange sym) ∧
    (∀ m tm, st.maxChanges sym = some (m, tm) → rabs pc > rabs m →
      (stepExtremum st sym pc now).maxChanges sym = some (pc, now) ∧
      (stepExtremum st sym pc now).lastSignificantChange sym = some now) ∧
    (∀ m tm, st.maxChanges sym = some (m, tm) → ¬ rabs pc > rabs m →
      stepExtremum st sym pc now = st) ∧
    (∀ cfg t, ¬ t.symbol = "" → 0 < t.lastPrice →
      MIN_VOL_THRESHOLD ≤ volumeUSDT t → st.basePrices t.symbol = none →
      (process_ticker cfg st now t).state.maxChanges t.symbol =
        st.maxChanges t.symbol) := by
  refine ⟨?_, ?_, ?_, ?_⟩
  · intro h
    unfold stepExtremum
    simp [h, setMap]
  · intro m tm h hgt
    unfold stepExtremum
    simp [h, hgt, setMap]
  · intro m tm h hle
    unfold stepExtremum
    simp [h, hle]
  · intro cfg t hs hp hv hb
    have hvalid : ¬ (t.lastPrice ≤ 0 ∨ volumeUSDT t < MIN_VOL_THRESHOLD) := by
      push_neg
      exact ⟨hp, hv⟩
    unfold process_ticker
    rw [if_neg hs]
    simp [hvalid, hb]

/-- Witness for C4 (amended): on an empty tracker a sample with
`changePct = 2` creates the entry `(2, 10)` and does not record
`lastSignificantChangeAt`. -/
theorem extremum_tracker_lazy_creation_witness :
    (stepExtremum emptyState "BTC_USDT" 2 10).maxChanges "BTC_USDT" =
      some (2, 10) ∧
    (stepExtremum emptyState "BTC_USDT" 2 10).lastSignificantChange
      "BTC_USDT" = emptyState.lastSignificantChange "BTC_USDT" :=
  (extremum_tracker_lazy_creation emptyState "BTC_USDT" 2 10).1 rfl

/-- Counterexample to C4 as stated: the first valid sample (transition
into Tracking) leaves the extremum tracker absent rather than
initializing `maxChangePct = 0`; the second valid sample, with
`changePct = 2` (which exceeds the claimed stored value 0), creates the
entry `(2, 10)` but records no `lastSignificantChangeAt`, contradicting
the claimed update rule. -/
theorem extremum_tracker_not_zero_on_transition_cex :
    (process_ticker ⟨none, [], [], []⟩ emptyState 0
      ⟨"BTC_USDT", 100, 200000, 0⟩).state.maxChanges "BTC_USDT" = none ∧
    (process_ticker ⟨none, [], [], []⟩
      (process_ticker ⟨none, [], [], []⟩ emptyState 0
        ⟨"BTC_USDT", 100, 200000, 0⟩).state 10
      ⟨"BTC_USDT", 102, 200000, 0⟩).state.maxChanges "BTC_USDT" =
        some (2, 10) ∧
    (process_ticker ⟨none, [], [], []⟩
      (process_ticker ⟨none, [], [], []⟩ emptyState 0
        ⟨"BTC_USDT", 100, 200000, 0⟩).state 10
      ⟨"BTC_USDT", 102, 200000, 0⟩).state.lastSignificantChange "BTC_USDT" =
        none := by
  norm_num +decide [process_ticker, emptyState, setMap, volumeUSDT,
    stepExtremum, shouldResetBase, resetBase, dispatchList, rabs,
    MIN_VOL_THRESHOLD, PUMP_THRESHOLD, DUMP_THRESHOLD, EXTREME_THRESHOLD]

/-- Claim C5 (amended): a sample emitting an EXTREME event for which at
least one delivery task exists (broadcast channel configured or some
subscriber passing the filters) has, after dispatch, its base price
reset to the sample's price and its extremum tracker zeroed. -/
theorem extreme_alert_resets_base_when_delivered (cfg : Config)
    (st : BotState) (now : ℚ) (t : TickerData) (base : ℚ)
    (hs : ¬ t.symbol = "") (hp : 0 < t.lastPrice)
    (hv : MIN_VOL_THRESHOLD ≤ volumeUSDT t)
    (hb : st.basePrices t.symbol = some base)
    (hx : rabs ((t.lastPrice - base) / base * 100) ≥ EXTREME_THRESHOLD)
    (ht : dispatchList cfg t.symbol
      (rabs ((t.lastPrice - base) / base * 100)) ≠ []) :
    (process_ticker cfg st now t).state.basePrices t.symbol =
      some t.lastPrice ∧
    (process_ticker cfg st now t).state.maxChanges t.symbol =
      some (0, now) ∧
    (process_ticker cfg st now t).event =
      some ⟨t.symbol, base, t.lastPrice, (t.lastPrice - base) / base * 100,
        Severity.EXTREME⟩ := by
  have hvalid : ¬ (t.lastPrice ≤ 0 ∨ volumeUSDT t < MIN_VOL_THRESHOLD) := by
    push_neg
    exact ⟨hp, hv⟩
  have hq : (t.lastPrice - base) / base * 100 ≥ PUMP_THRESHOLD ∨
      (t.lastPrice - base) / base * 100 ≤ DUMP_THRESHOLD := by
    have h := hx
    unfold rabs EXTREME_THRESHOLD at h
    unfold PUMP_THRESHOLD DUMP_THRESHOLD
    split at h
    · right
      linarith
    · left
      linarith
  unfold process_ticker
  rw [if_neg hs]
  refine ⟨?_, ?_, ?_⟩ <;>
    simp [hvalid, hb, hq, hx, ht, resetBase, setMap]

/-- Witness for C5 (amended): base 100, price 88 (`changePct = -12`),
broadcast channel configured, so after dispatch the base is 88 and the
tracker zeroed. -/
theorem extreme_alert_resets_base_when_delivered_witness :
    (process_ticker ⟨some "chan", [], [], []⟩
      { emptyState with
          basePrices := fun s => if s = "BTC_USDT" then some (100 : ℚ) else none }
      0 ⟨"BTC_USDT", 88, 200000, 0⟩).state.basePrices "BTC_USDT" =
        some 88 ∧
    (process_ticker ⟨some "chan", [], [], []⟩
      { emptyState with
          basePrices := fun s => if s = "BTC_USDT" then some (100 : ℚ) else none }
      0 ⟨"BTC_USDT", 88, 200000, 0⟩).state.maxChanges "BTC_USDT" =
        some (0, 0) ∧
    (process_ticker ⟨some "chan", [], [], []⟩
      { emptyState with
          basePrices := fun s => if s = "BTC_USDT" then some (100 : ℚ) else none }
      0 ⟨"BTC_USDT", 88, 200000, 0⟩).event =
      some ⟨"BTC_USDT", 100, 88, ((88 : ℚ) - 100) / 100 * 100,
        Severity.EXTREME⟩ :=
  extreme_alert_resets_base_when_delivered ⟨some "chan", [], [], []⟩
    { emptyState with
        basePrices := fun s => if s = "BTC_USDT" then some (100 : ℚ) else none }
    0 ⟨"BTC_USDT", 88, 200000, 0⟩ 100 (by decide) (by norm_num)
    (by norm_num [volumeUSDT, MIN_VOL_THRESHOLD]) (by simp)
    (by norm_num [rabs, EXTREME_THRESHOLD])
    (by simp [dispatchList])

/-- Counterexample to C5 as stated: with no broadcast channel and no
subscribers, a sample with `changePct = -12` emits an EXTREME event but
no delivery task exists, and the base price stays 100 instead of being
reset to 88. -/
theorem extreme_alert_without_recipients_skips_reset_cex :
    (process_ticker ⟨none, [], [], []⟩
      { emptyState with
          basePrices := fun s => if s = "BTC_USDT" then some (100 : ℚ) else none }
      0 ⟨"BTC_USDT", 88, 200000, 0⟩).event =
        some ⟨"BTC_USDT", 100, 88, -12, Severity.EXTREME⟩ ∧
    (process_ticker ⟨none, [], [], []⟩
      { emptyState with
          basePrices := fun s => if s = "BTC_USDT" then some (100 : ℚ) else none }
      0 ⟨"BTC_USDT", 88, 200000, 0⟩).state.basePrices "BTC_USDT" =
        some 100 ∧
    (process_ticker ⟨none, [], [], []⟩
      { emptyState with
          basePrices := fun s => if s = "BTC_USDT" then some (100 : ℚ) else none }
      0 ⟨"BTC_USDT", 88, 200000, 0⟩).recipients = [] := by
  norm_num +decide [process_ticker, emptyState, setMap, volumeUSDT,
    stepExtremum, shouldResetBase, resetBase, dispatchList, rabs,
    MIN_VOL_THRESHOLD, PUMP_THRESHOLD, DUMP_THRESHOLD, EXTREME_THRESHOLD]

/-- Claim C3: a subscriber is sent the alert message iff the instrument
is not in its muted set, MODERATE_ONLY mode (2) sees only
`abs` within `[3, 5]` inclusive, and EXTREME_ONLY mode (3) sees only
`abs >= 10`. -/
theorem dispatch_mode_mute_filter (cfg : Config) (sym : String) (a : ℚ)
    (cid : ℤ) (hcid : cid ∈ cfg.subscribers) :
    Recipient.chat cid ∈ dispatchList cfg sym a ↔
      isMuted cfg cid sym = false ∧
      ((lookupMode cfg cid).getD 1 = 2 →
        PUMP_THRESHOLD ≤ a ∧ a ≤ MODERATE_MAX) ∧
      ((lookupMode cfg cid).getD 1 = 3 → EXTREME_THRESHOLD ≤ a) := by
  rw [chat_mem_dispatchList, shouldSend_true_iff]
  simp [hcid]

/-- Witness for C3: a MODERATE_ONLY subscriber (mode 2) and `abs = 4`. -/
theorem dispatch_mode_mute_filter_witness :
    Recipient.chat 7 ∈ dispatchList ⟨none, [7], [(7, 2)], []⟩ "BTC_USDT" 4 ↔
      isMuted ⟨none, [7], [(7, 2)], []⟩ 7 "BTC_USDT" = false ∧
      ((lookupMode ⟨none, [7], [(7, 2)], []⟩ 7).getD 1 = 2 →
        PUMP_THRESHOLD ≤ (4 : ℚ) ∧ (4 : ℚ) ≤ MODERATE_MAX) ∧
      ((lookupMode ⟨none, [7], [(7, 2)], []⟩ 7).getD 1 = 3 →
        EXTREME_THRESHOLD ≤ (4 : ℚ)) :=
  dispatch_mode_mute_filter ⟨none, [7], [(7, 2)], []⟩ "BTC_USDT" 4 7
    (by simp)

/-- Claim C10: a subscriber present in the subscriber set but absent
from the alert-mode map is treated as mode 1 (ALL): it is sent every
dispatched event whose instrument it has not muted, of either
severity. -/
theorem missing_mode_defaults_to_all (cfg : Config) (sym : String)
    (a : ℚ) (cid : ℤ) (hcid : cid ∈ cfg.subscribers)
    (hm : lookupMode cfg cid = none) :
    (Recipient.chat cid ∈ dispatchList cfg sym a ↔
      isMuted cfg cid sym = false) := by
  rw [chat_mem_dispatchList]
  unfold shouldSend
  simp only [hm, Option.getD_none, hcid, true_and]
  cases hmu : isMuted cfg cid sym <;> simp [hmu]

/-- Witness for C10: subscriber 5 is in the set, has no mode entry and
has not muted the instrument, so it receives an event of `abs = 12`. -/
theorem missing_mode_defaults_to_all_witness :
    Recipient.chat 5 ∈ dispatchList ⟨none, [5], [], []⟩ "BTC_USDT" 12 ↔
      isMuted ⟨none, [5], [], []⟩ 5 "BTC_USDT" = false :=
  missing_mode_defaults_to_all ⟨none, [5], [], []⟩ "BTC_USDT" 12 5
    (by simp) rfl

/-- Witness for C9: an instrument last seen at price 7 with no recorded
alert has its base forced to 7 by the sweep. -/
theorem backup_sweep_resets_stale_bases_witness :
    (job_reset_base_prices
      { emptyState with
          lastPrices := fun s => if s = "A_USDT" then some ((7 : ℚ), 0) else none }
      1000).basePrices "A_USDT" = some 7 :=
  (backup_sweep_resets_stale_bases
    { emptyState with
        lastPrices := fun s => if s = "A_USDT" then some ((7 : ℚ), 0) else none }
    1000 "A_USDT").1 7 0 (by simp) rfl

end MexcBot
